import Mathlib

/-!
Shallow embedding of the transaction ingestion, decoding and PnL pipeline of
the `my_solana_bot` repository (`src/transaction_processor.py`,
`src/transaction_fetcher.py`, `src/wallet_analyzer.py`, `src/api_client.py`).

Numeric conventions: Python ints and floats are modelled as `Int` / `Rat`
(the programs only perform exact arithmetic on the values the claims touch);
byte strings are `List Nat` (each entry < 256); JSON dictionaries with
optional keys are structures of `Option` fields, where `none` stands for an
absent key and `Option.getD` mirrors `dict.get(key, default)`.  A Python
function that can raise an exception which escapes to its caller is modelled
with an `Option` result (`none` = exception); exceptions that the function
itself catches are folded into the branch the handler returns.
-/

namespace MySolanaBot

/-- The base64 alphabet position of a character, `none` when the character is
not in the alphabet (`A-Z`, `a-z`, `0-9`, `+`, `/`). -/
def b64Index (c : Char) : Option Nat :=
  if 'A' ≤ c ∧ c ≤ 'Z' then some (c.toNat - 'A'.toNat)
  else if 'a' ≤ c ∧ c ≤ 'z' then some (c.toNat - 'a'.toNat + 26)
  else if '0' ≤ c ∧ c ≤ '9' then some (c.toNat - '0'.toNat + 52)
  else if c = '+' then some 62
  else if c = '/' then some 63
  else none

/-- Turns a list of 6-bit base64 digit values into bytes: every full group of
4 digits yields 3 bytes, a trailing group of 3 digits yields 2 bytes, a
trailing group of 2 digits yields 1 byte (a trailing single digit is rejected
before this function is called). -/
def b64Bytes : List Nat → List Nat
  | a :: b :: c :: d :: rest =>
      (a * 4 + b / 16) :: ((b % 16) * 16 + c / 4) :: ((c % 4) * 64 + d) :: b64Bytes rest
  | [a, b, c] => [a * 4 + b / 16, (b % 16) * 16 + c / 4]
  | [a, b] => [a * 4 + b / 16]
  | _ => []

/-- Model of Python `base64.b64decode` with `validate=False` (the default used
by the source): characters outside the alphabet and outside `=` are discarded;
the remaining string must have length divisible by 4; the data characters
before the first `=` must not number 1 more than a multiple of 4; `none`
models the `binascii.Error` raised otherwise. -/
def pythonB64Decode (s : List Char) : Option (List Nat) :=
  let valid := s.filter (fun c => (b64Index c).isSome ∨ c = '=')
  if valid.length % 4 ≠ 0 then none
  else
    let dataChars := valid.takeWhile (fun c => c ≠ '=')
    if dataChars.length % 4 = 1 then none
    else some (b64Bytes (dataChars.map (fun c => (b64Index c).getD 0)))

/-- `safe_base64_decode` (transaction_processor.py lines 16-25): pads the raw
string to a multiple of 4 with `=`, then base64-decodes; any exception is
caught and `None` is returned. -/
def safe_base64_decode (data : String) : Option (List Nat) :=
  let missing_padding := data.length % 4
  let padded := if missing_padding ≠ 0 then
    data.data ++ List.replicate (4 - missing_padding) '=' else data.data
  pythonB64Decode padded

/-- The base58 alphabet. -/
def b58Alphabet : List Char :=
  "123456789ABCDEFGHJKLMNPQRSTUVWXYZabcdefghijkmnopqrstuvwxyz".data

/-- The base58 alphabet position of a character, `none` when absent. -/
def b58Index (c : Char) : Option Nat :=
  let i := b58Alphabet.indexOf c
  if i < b58Alphabet.length then some i else none

/-- Big-endian byte expansion of a natural number, fuel-indexed accumulator
form (`n / 256 < n` for positive `n`, so fuel `n` always suffices). -/
def natToBytesGo : Nat → Nat → List Nat → List Nat
  | _, 0, acc => acc
  | 0, _ + 1, _acc => []
  | fuel + 1, n + 1, acc =>
    natToBytesGo fuel ((n + 1) / 256) (((n + 1) % 256) :: acc)

/-- Big-endian byte expansion of a natural number (empty for 0). -/
def natToBytes (n : Nat) : List Nat := natToBytesGo n n []

/-- Modelled from the spec: the spec's §4.2 decoding step prescribes a base58
fallback decoder for instruction payloads; no base58 decoder exists anywhere
in the source, so it is modelled here from the standard base58 layout the
spec's glossary assumes: reject any character outside the base58 alphabet,
read the string as a big-endian base-58 number, emit its big-endian bytes,
one leading zero byte per leading `1` character. -/
def base58_decode (s : String) : Option (List Nat) :=
  let idxs := s.data.map b58Index
  if idxs.any (·.isNone) then none
  else
    let digits := idxs.map (·.getD 0)
    let value := digits.foldl (fun acc d => acc * 58 + d) 0
    let zeros := (s.data.takeWhile (· = '1')).length
    some (List.replicate zeros 0 ++ natToBytes value)

/-- Little-endian interpretation of a byte list, as in
`int.from_bytes(bs, byteorder='little')` (empty list gives 0). -/
def intFromBytesLE (bs : List Nat) : Nat :=
  bs.foldr (fun b acc => b + 256 * acc) 0

/-- Python slice `xs[a:b]`. -/
def pySlice (xs : List Nat) (a b : Nat) : List Nat :=
  (xs.take b).drop a

/-- The dictionary `decoded_data` that `decode_instruction` builds: keys
`type`, `amount`, `token`, `token_account`, each possibly absent. -/
structure DecodedData where
  type : Option String
  amount : Option Rat
  token : Option String
  token_account : Option String
deriving Repr, DecidableEq

/-- `TransactionProcessor.decode_instruction` (transaction_processor.py lines
138-218), parameterized by the configuration values `TOKEN_PROGRAM_ID` and
`SYSTEM_PROGRAM_ID`.  The control flow mirrors the source branch by branch;
every branch yields `none`:
* empty/`None` payload: explicit `return None` (line 151);
* base64 failure: `safe_base64_decode` returns `None`, the following
  `data.hex()` raises `AttributeError`, the inner handler returns `None`
  (lines 154-159);
* token-program tag-3 branch: `token = detect_token` (line 172) raises
  `NameError` (`detect_token` is a method, unresolvable as a bare name), the
  outer handler returns `None` (lines 214-218);
* every other branch falls through to the big quoted string expression at
  lines 199-213 — the `return decoded_data if decoded_data else None`
  statement is part of that string literal, so the function body ends with no
  `return` and Python returns `None` implicitly. -/
def decode_instruction (tokenProgramId systemProgramId : String)
    (instruction_data : Option String) (program_id : String)
    (account_keys : List String) : Option DecodedData :=
  match instruction_data with
  | none => none
  | some s =>
    if s = "" then none
    else
      match safe_base64_decode s with
      | none => none
      | some data =>
        if program_id = tokenProgramId then
          if data.length ≥ 9 then
            let instruction_type := data.headD 0
            if instruction_type = 3 then
              -- `token_account_index` and `token_account` are computed, then
              -- `token = detect_token` raises NameError → handler → None
              let token_account_index := intFromBytesLE (pySlice data 9 10)
              let _token_account :=
                if token_account_index < account_keys.length then
                  account_keys.getD token_account_index "Unknown"
                else "Unknown"
              none
            else
              -- tag 1 (approve) and the unsupported-tag branch only log;
              -- fall-through to the string literal → implicit None
              none
          else none
        else if program_id = systemProgramId then
          -- create_account / transfer branches assign `decoded_data` but the
          -- function still falls through to the string literal → implicit None
          none
        else
          -- unknown program id: no branch taken, implicit None
          none

/-- One entry of the `instructions` list inside a raw transaction detail. -/
structure Instr where
  programIdIndex : Option Nat
  data : Option String
deriving Repr, DecidableEq

/-- The `message` sub-dictionary of a raw transaction detail. -/
structure TxMessage where
  accountKeys : Option (List String)
  instructions : Option (List Instr)
deriving Repr, DecidableEq

/-- The `transaction` sub-dictionary of a raw transaction detail. -/
structure TxOuter where
  signatures : Option (List (Option String))
  message : Option TxMessage
deriving Repr, DecidableEq

/-- The `meta` sub-dictionary of a raw transaction detail. -/
structure TxMeta where
  fee : Option Rat
deriving Repr, DecidableEq

/-- A raw transaction detail as returned by the `getTransaction` RPC call:
the fields the processor reads, each possibly absent. -/
structure TxDetails where
  transaction : Option TxOuter
  blockTime : Option Int
  meta : Option TxMeta
deriving Repr, DecidableEq

/-- The `Transaction` namedtuple (transaction_processor.py line 11). -/
structure Transaction where
  signature : Option String
  timestamp : Int
  type : Option String
  amount : Rat
  token : String
  price : Rat
  fee : Rat
  net_amount : Rat
deriving Repr, DecidableEq

/-- The default empty sub-dictionaries used by the `.get(key, {})` chains. -/
def emptyOuter : TxOuter := ⟨none, none⟩

/-- The instruction loop of `process_transaction` (lines 75-100): skip
instructions without `programIdIndex`, resolve the program id (out-of-range
index gives `"Unknown"`), decode, and stop at the first instruction whose
decode is truthy (`break` at line 98). -/
def findDecoded (tokenProgramId systemProgramId : String)
    (account_keys : List String) : List Instr → Option DecodedData
  | [] => none
  | instruction :: rest =>
    match instruction.programIdIndex with
    | none => findDecoded tokenProgramId systemProgramId account_keys rest
    | some program_id_index =>
      let program_id := if program_id_index < account_keys.length then
        account_keys.getD program_id_index "Unknown" else "Unknown"
      match decode_instruction tokenProgramId systemProgramId
          instruction.data program_id account_keys with
      | some d => some d
      | none => findDecoded tokenProgramId systemProgramId account_keys rest

/-- `TransactionProcessor.process_transaction` (lines 51-118).  The only
uncaught exception path is `...get("signatures", [None])[0]` when the
`signatures` key holds an empty list (`IndexError`); that is the `none`
result.  `timestamp` is `transaction_details.get("blockTime", 0)`; `fee` is
`meta.get("fee", 0)`; the first decodable instruction supplies
`type`/`amount`/`token` (never reached in fact, since decoding always yields
`None`); `net_amount = amount - fee`. -/
def process_transaction (tokenProgramId systemProgramId : String)
    (transaction_details : TxDetails) (account_keys : List String) :
    Option Transaction :=
  let sigs := ((transaction_details.transaction.getD emptyOuter).signatures).getD [none]
  match sigs with
  | [] => none
  | signature :: _ =>
    let timestamp := transaction_details.blockTime.getD 0
    let fee := ((transaction_details.meta.getD ⟨none⟩).fee).getD 0
    let instructions :=
      (((transaction_details.transaction.getD emptyOuter).message.getD
        ⟨none, none⟩).instructions).getD []
    let decoded := findDecoded tokenProgramId systemProgramId account_keys instructions
    let transaction_type := match decoded with
      | some d => d.type
      | none => none
    let amount := match decoded with
      | some d => d.amount.getD 0
      | none => 0
    let token := match decoded with
      | some d => d.token.getD "SOL"
      | none => "SOL"
    let net_amount := amount - fee
    some {
      signature := signature
      timestamp := timestamp
      type := transaction_type
      amount := amount
      token := token
      price := 0
      fee := fee
      net_amount := net_amount
    }

/-!
### History fetcher (transaction_fetcher.py)

The RPC endpoint behind `client.post_request("getSignaturesForAddress", ...)`
is modelled as a response oracle `resp : Nat → Option String → Option (List
String)`: for the `i`-th request (0-based) carrying `before` cursor `b`,
`resp i b` is the page of signature records — `none` covers both a `None`
response and a response without a `"result"` key (the code `break`s on
either), `some []` an empty result list.  Page entries are identified by
their signature strings, the only field the loop reads.
-/

/-- The `while` loop of `fetch_transaction_history` (transaction_fetcher.py
lines 39-82).  `fuel` is the number of remaining iterations allowed by
`iteration < max_iterations`; `i` the 0-based index of the next request;
`all` the accumulated list; `before` the cursor; `dup` the duplicate-batch
counter.  Any exception inside the `try` (`break` via the handler at lines
80-82) does not occur in this data model, since page entries are plain
signatures. -/
def fetchLoop (resp : Nat → Option String → Option (List String))
    (batch_size max_transactions : Nat) :
    Nat → Nat → List String → Option String → Nat → List String
  | 0, _, all, _, _ => all
  | fuel + 1, i, all, before, dup =>
    if all.length < max_transactions then
      match resp i before with
      | none => all
      | some [] => all
      | some (p0 :: rest) =>
        let page := p0 :: rest
        let step := fun (dup' : Nat) =>
          let all' := all ++ page
          if page.length < batch_size then all'
          else if all'.length ≥ max_transactions then all'
          else fetchLoop resp batch_size max_transactions
            fuel (i + 1) all' (some (rest.getLastD p0)) dup'
        match all.getLast? with
        | some lastSig =>
          if p0 = lastSig then
            let dup' := dup + 1
            if dup' ≥ 3 then all else step dup'
          else step 0
        | none => step 0
    else all

/-- The body of `TransactionFetcher.fetch_transaction_history` (lines 23-89)
for a nonzero `batch_size`: run the loop for at most
`max(1, max_transactions // batch_size + 1)` iterations, then trim the
accumulated list to `max_transactions` entries. -/
def fetchHistory (resp : Nat → Option String → Option (List String))
    (batch_size max_transactions : Nat) : List String :=
  let max_iterations := max 1 (max_transactions / batch_size + 1)
  let all := fetchLoop resp batch_size max_transactions max_iterations 0 [] none 0
  if all.length > max_transactions then all.take max_transactions else all

/-- `TransactionFetcher.fetch_transaction_history`: with `batch_size = 0` the
`max_transactions // self.batch_size` at line 34 raises `ZeroDivisionError`
(no list is returned), modelled by `none`. -/
def fetch_transaction_history (resp : Nat → Option String → Option (List String))
    (batch_size max_transactions : Nat) : Option (List String) :=
  if batch_size = 0 then none
  else some (fetchHistory resp batch_size max_transactions)

/-!
### PnL aggregator (wallet_analyzer.py)

`WalletAnalyzer.get_token_price` is decorated with `lru_cache`: within one
analyzer's lifetime the underlying `price_fetcher.get_token_price(token)` is
called at most once per token, later lookups return the cached value.  The
collaborator is modelled as a call-indexed oracle `priceAt : Nat → String →
Rat` (`priceAt k tok` = the price the fetcher would report on the `k`-th
actual fetch), and the cache as an association list threaded through the
state, so a price that changes between the buy and the sell of a token is
expressible — and visibly absorbed by the cache, as in the source. -/

/-- The per-token record stored in `bought_assets` (lines 206-210). -/
structure OpenPos where
  price : Rat
  amount : Rat
  timestamp : Int
deriving Repr, DecidableEq

/-- The mutable state of `calculate_pnl`'s scan (lines 187-193), plus the
`get_token_price` cache and its fetch-call counter. -/
structure PnlState where
  realized_pnl : Rat
  unrealized_pnl : Rat
  profitable_trades : Nat
  total_trades : Nat
  buy_sell_dates : List (String × Int)
  bought_assets : List (String × OpenPos)
  cache : List (String × Rat)
  calls : Nat
deriving Repr, DecidableEq

/-- Initial scan state. -/
def initPnlState : PnlState := ⟨0, 0, 0, 0, [], [], [], 0⟩

/-- Association-list lookup (Python `dict` access / `in` test). -/
def alistLookup (k : String) : List (String × OpenPos) → Option OpenPos
  | [] => none
  | (k', v) :: rest => if k' = k then some v else alistLookup k rest

/-- Python `dict` assignment `d[k] = v`: replace in place when the key
exists (keeping its position), else append. -/
def alistInsert (k : String) (v : OpenPos) : List (String × OpenPos) →
    List (String × OpenPos)
  | [] => [(k, v)]
  | (k', v') :: rest =>
    if k' = k then (k, v) :: rest else (k', v') :: alistInsert k v rest

/-- Python `del d[k]`. -/
def alistErase (k : String) : List (String × OpenPos) → List (String × OpenPos)
  | [] => []
  | (k', v') :: rest =>
    if k' = k then rest else (k', v') :: alistErase k rest

/-- Cache lookup for `get_token_price`. -/
def cacheLookup (k : String) : List (String × Rat) → Option Rat
  | [] => none
  | (k', v) :: rest => if k' = k then some v else cacheLookup k rest

/-- `WalletAnalyzer.get_token_price` (lines 250-259) with its `lru_cache`:
returns the price together with the updated cache state. -/
def get_token_price (priceAt : Nat → String → Rat) (s : PnlState)
    (token : String) : Rat × PnlState :=
  match cacheLookup token s.cache with
  | some p => (p, s)
  | none =>
    let p := priceAt s.calls token
    (p, { s with cache := s.cache ++ [(token, p)], calls := s.calls + 1 })

/-- One pass of the `for transaction in processed_transactions` loop of
`calculate_pnl` (lines 195-235).  `continue` paths skip the trailing
`total_trades += 1`; a transaction that is neither `buy` nor `sell`
(including the `type=None` ones the pipeline actually produces) falls
through the `elif` chain and still increments `total_trades`.  The event
list stores the tag and the epoch timestamp (the source stores
`datetime.fromtimestamp(ts).strftime('%Y-%m-%d %H:%M:%S')`, an invertible
rendering of the integer timestamp). -/
def pnlStep (priceAt : Nat → String → Rat) (s : PnlState)
    (transaction : Transaction) : PnlState :=
  if transaction.type = some "buy" then
    let amount := transaction.amount
    let (price, s1) := get_token_price priceAt s transaction.token
    if price = 0 then s1
    else
      { s1 with
        unrealized_pnl := s1.unrealized_pnl - amount * price
        bought_assets := alistInsert transaction.token
          ⟨price, amount, transaction.timestamp⟩ s1.bought_assets
        buy_sell_dates := s1.buy_sell_dates ++ [("buy", transaction.timestamp)]
        total_trades := s1.total_trades + 1 }
  else if transaction.type = some "sell" then
    let amount := transaction.amount
    let (price, s1) := get_token_price priceAt s transaction.token
    if price = 0 then s1
    else
      match alistLookup transaction.token s1.bought_assets with
      | none => s1
      | some pos =>
        let buy_price := pos.price
        { s1 with
          realized_pnl := s1.realized_pnl + (amount * price - amount * buy_price)
          profitable_trades := s1.profitable_trades +
            (if price > buy_price then 1 else 0)
          bought_assets := alistErase transaction.token s1.bought_assets
          buy_sell_dates := s1.buy_sell_dates ++ [("sell", transaction.timestamp)]
          total_trades := s1.total_trades + 1 }
  else
    { s with total_trades := s.total_trades + 1 }

/-- State after the main scan of `calculate_pnl`. -/
def pnlScan (priceAt : Nat → String → Rat) (txs : List Transaction) : PnlState :=
  txs.foldl (pnlStep priceAt) initPnlState

/-- The trailing `for token, asset in bought_assets.items()` loop (lines
238-243): mark remaining open positions at current price, skipping tokens
whose price lookup yields 0. -/
def unrealizedSweep (priceAt : Nat → String → Rat) :
    PnlState → List (String × OpenPos) → PnlState
  | s, [] => s
  | s, (token, asset) :: rest =>
    let (current_price, s1) := get_token_price priceAt s token
    if current_price = 0 then unrealizedSweep priceAt s1 rest
    else unrealizedSweep priceAt
      { s1 with unrealized_pnl :=
          s1.unrealized_pnl + asset.amount * (current_price - asset.price) }
      rest

/-- Result tuple of `calculate_pnl` (line 248). -/
structure PnlResult where
  total_pnl : Rat
  realized_pnl : Rat
  unrealized_pnl : Rat
  win_rate : Rat
  buy_sell_dates : List (String × Int)
deriving Repr, DecidableEq

/-- Final state of `calculate_pnl` after both loops. -/
def pnlFinalState (priceAt : Nat → String → Rat) (txs : List Transaction) :
    PnlState :=
  let s := pnlScan priceAt txs
  unrealizedSweep priceAt s s.bought_assets

/-- `WalletAnalyzer.calculate_pnl` (lines 179-248). -/
def calculate_pnl (priceAt : Nat → String → Rat) (txs : List Transaction) :
    PnlResult :=
  let s := pnlFinalState priceAt txs
  { total_pnl := s.realized_pnl + s.unrealized_pnl
    realized_pnl := s.realized_pnl
    unrealized_pnl := s.unrealized_pnl
    win_rate := if s.total_trades > 0 then
      ((s.profitable_trades : Rat) / (s.total_trades : Rat)) * 100 else 0
    buy_sell_dates := s.buy_sell_dates }

/-- Indices of the events carrying a given tag, as produced by the
`[i for i, d in enumerate(buy_sell_dates) if d['transaction'] == tag]`
comprehensions (wallet_analyzer.py lines 274-275). -/
def tagIndices (tag : String) (evs : List (String × Int)) : List Nat :=
  (evs.enum.filter (fun p => p.2.1 = tag)).map Prod.fst

/-- Timestamp of the event at an index (the source re-parses the stored
datetime string; on the integer timestamps involved the round-trip is the
identity). -/
def eventTs (evs : List (String × Int)) (i : Nat) : Int :=
  (evs.getD i ("", 0)).2

/-- `WalletAnalyzer.calculate_avg_holding_period` (lines 261-289): pair
buy indices with sell indices positionally (`zip`), skip pairs whose sell
index is not strictly after the buy index, average the differences in
minutes; fewer than two events short-circuits to `(0, 0)`. -/
def calculate_avg_holding_period (evs : List (String × Int)) : Rat × Nat :=
  if evs.length < 2 then (0, 0)
  else
    let buy_indices := tagIndices "buy" evs
    let sell_indices := tagIndices "sell" evs
    let holding_periods := (buy_indices.zip sell_indices).filterMap
      (fun p =>
        if p.2 ≤ p.1 ∨ p.2 ≥ evs.length then none
        else some ((((eventTs evs p.2) - (eventTs evs p.1) : Int) : Rat) / 60))
    let avg := if holding_periods ≠ [] then
      holding_periods.sum / (holding_periods.length : Rat) else 0
    (avg, holding_periods.length)

/-- `WalletAnalyzer.check_wallet_capital` (lines 123-143), with the balance
and the SOL/USD price supplied by their collaborator calls: a zero price
short-circuits to `False`, otherwise compare `balance * price` against the
minimum. -/
def check_wallet_capital (sol_balance sol_to_usd minimum_capital_usd : Rat) :
    Bool :=
  if sol_to_usd = 0 then false
  else decide (sol_balance * sol_to_usd ≥ minimum_capital_usd)

/-- The collaborators `analyze_wallet` consumes, as oracles: the two
program-id configuration values, the balance and SOL price lookups (both
cached per run in the source), the signature-history endpoint, the
per-signature detail fetch (cached, hence a function of the signature), and
the call-indexed token-price oracle. -/
structure Oracles where
  tokenProgramId : String
  systemProgramId : String
  balance : Rat
  solPrice : Rat
  histResp : Nat → Option String → Option (List String)
  details : String → Option TxDetails
  priceAt : Nat → String → Rat

/-- The result dictionary of `analyze_wallet` (lines 107-121; the
no-transaction variant at lines 71-78 carries the same numeric fields, with
the event list under the key `buy_sell_dates` instead of `trades`).  The
echoed threshold `settings` sub-dictionary is omitted. -/
structure WalletResult where
  address : String
  total_pnl : Rat
  realized_pnl : Rat
  unrealized_pnl : Rat
  win_rate : Rat
  trades : List (String × Int)
deriving Repr, DecidableEq

/-- Account-key extraction of `process_transactions_concurrently` (line 168):
`details.get("transaction", {}).get("message", {}).get("accountKeys", [])`. -/
def accountKeysOf (d : TxDetails) : List String :=
  (((d.transaction.getD emptyOuter).message.getD ⟨none, none⟩).accountKeys).getD []

/-- `WalletAnalyzer.analyze_wallet` (lines 49-121), instrumented with the
number of `fetch_transaction_history` calls it performs (second component;
the single call site is line 68).  `fetchHistory` is invoked with the
fetcher's constructor defaults `batch_size = 2`, `max_transactions = 50`.
`process_transactions_concurrently` (lines 154-177) maps detail-fetch plus
`process_transaction` over the signatures and drops the failures; the thread
pool only parallelizes these independent calls, so it is modelled by the
map itself.  The unused-in-logic `timeframe` argument is dropped. -/
def analyze_wallet (o : Oracles) (wallet_address : String)
    (minimum_wallet_capital minimum_avg_holding_period minimum_win_rate
      minimum_total_pnl : Rat) : Option WalletResult × Nat :=
  if ¬ check_wallet_capital o.balance o.solPrice minimum_wallet_capital then
    (none, 0)
  else
    let transactions := fetchHistory o.histResp 2 50
    if transactions = [] then
      (some ⟨wallet_address, 0, 0, 0, 0, []⟩, 1)
    else
      let processed := transactions.filterMap (fun sig =>
        (o.details sig).bind fun d =>
          process_transaction o.tokenProgramId o.systemProgramId d
            (accountKeysOf d))
      if processed = [] then (none, 1)
      else
        let r := calculate_pnl o.priceAt processed
        let avg := (calculate_avg_holding_period r.buy_sell_dates).1
        if r.win_rate < minimum_win_rate ∨ r.total_pnl < minimum_total_pnl then
          (none, 1)
        else if avg < minimum_avg_holding_period then (none, 1)
        else
          (some ⟨wallet_address, r.total_pnl, r.realized_pnl, r.unrealized_pnl,
            r.win_rate, r.buy_sell_dates⟩, 1)

/-!
### Shared lemmas
-/

/-- Every branch of `decode_instruction` yields `none` (the `return`
statement of the successful path sits inside a string literal, and the
token-transfer path raises `NameError` first). -/
theorem decode_instruction_eq_none (tp sp : String) (idata : Option String)
    (pid : String) (keys : List String) :
    decode_instruction tp sp idata pid keys = none := by
  unfold decode_instruction
  cases idata with
  | none => rfl
  | some s =>
    by_cases h : s = ""
    · simp [h]
    · simp only [h, if_false]
      cases safe_base64_decode s with
      | none => rfl
      | some data => simp [ite_self]

/-- The instruction loop of `process_transaction` never finds a decodable
instruction. -/
theorem findDecoded_eq_none (tp sp : String) (keys : List String) :
    ∀ instrs, findDecoded tp sp keys instrs = none
  | [] => rfl
  | i :: rest => by
    unfold findDecoded
    cases i.programIdIndex with
    | none => exact findDecoded_eq_none tp sp keys rest
    | some idx =>
      simp only [decode_instruction_eq_none]
      exact findDecoded_eq_none tp sp keys rest

/-- Closed form of `process_transaction`: the decode loop yields nothing, so
the produced record always carries `type = None`, `amount = 0`,
`token = "SOL"` and `net_amount = 0 - fee`. -/
theorem process_transaction_eq (tp sp : String) (d : TxDetails)
    (keys : List String) :
    process_transaction tp sp d keys =
      match ((d.transaction.getD emptyOuter).signatures).getD [none] with
      | [] => none
      | signature :: _ =>
        some ⟨signature, d.blockTime.getD 0, none, 0, "SOL", 0,
          ((d.meta.getD ⟨none⟩).fee).getD 0,
          0 - ((d.meta.getD ⟨none⟩).fee).getD 0⟩ := by
  unfold process_transaction
  simp only [findDecoded_eq_none]

/-!
### Claim theorems
-/

/-- C1: evaluation of the code at the claim's premise.  The payload
`"AxAnAAAAAAAABQ=="` decodes to bytes `[3, 16, 39, 0, 0, 0, 0, 0, 0, 5]` —
instruction tag 3, length 10 ≥ 9, amount bytes `[1:9]` = 10000 lamports,
account index 5 out of range of the empty key list — so the claim (and the
function's own docstring) promises a decoded transfer record with
`amount = 10000/10^9` and `token_account = "Unknown"`; `decode_instruction`
instead returns `none` (`token = detect_token` raises `NameError`, and the
`return decoded_data` statement sits inside a string literal). -/
theorem c1_transfer_record_never_returned :
    safe_base64_decode "AxAnAAAAAAAABQ==" =
      some [3, 16, 39, 0, 0, 0, 0, 0, 0, 5] ∧
    decode_instruction "TOKENPID" "SYSPID" (some "AxAnAAAAAAAABQ==")
      "TOKENPID" [] = none :=
  ⟨by decide, decode_instruction_eq_none "TOKENPID" "SYSPID"
    (some "AxAnAAAAAAAABQ==") "TOKENPID" []⟩

/-- C2: for every input, `decode_instruction` returns `None` (the statement
that would return the record it builds lies inside a string literal), and
consequently every `Transaction` that `process_transaction` returns has
`type = None` and `amount = 0`. -/
theorem c2_decode_always_none_and_untyped_transactions (tp sp : String)
    (idata : Option String) (pid : String) (keys : List String)
    (d : TxDetails) (akeys : List String) (tx : Transaction)
    (h : process_transaction tp sp d akeys = some tx) :
    decode_instruction tp sp idata pid keys = none ∧
      tx.type = none ∧ tx.amount = 0 := by
  refine ⟨decode_instruction_eq_none tp sp idata pid keys, ?_⟩
  rw [process_transaction_eq] at h
  cases hL : ((d.transaction.getD emptyOuter).signatures).getD [none] with
  | nil => rw [hL] at h; cases h
  | cons sig rest =>
    rw [hL] at h
    injection h with h
    subst h
    exact ⟨rfl, rfl⟩

/-- C2 witness: a concrete transaction detail with every optional field
absent is processed into a record with `type = None`, `amount = 0`. -/
theorem c2_witness :
    decode_instruction "TOKENPID" "SYSPID" none "pid" [] = none ∧
      Transaction.type ⟨some "sig", 0, none, 0, "SOL", 0, 0, 0⟩ = none ∧
      Transaction.amount ⟨some "sig", 0, none, 0, "SOL", 0, 0, 0⟩ = 0 :=
  c2_decode_always_none_and_untyped_transactions "TOKENPID" "SYSPID" none
    "pid" [] ⟨some ⟨some [some "sig"], none⟩, none, none⟩ []
    ⟨some "sig", 0, none, 0, "SOL", 0, 0, 0⟩
    (by rw [process_transaction_eq]; norm_num)

/-- Endpoint returning pages `[a,b]`, `[b,c]`, `[c,d]`, `[d,e]`: each page
from the second on has its first signature equal to the last accumulated
one, so pages 1, 2, 3 are three consecutive duplicate pages in the source's
sense. -/
def dupPages : Nat → Option String → Option (List String)
  | 0, _ => some ["a", "b"]
  | 1, _ => some ["b", "c"]
  | 2, _ => some ["c", "d"]
  | 3, _ => some ["d", "e"]
  | _, _ => some []

/-- C3 counterexample: under `dupPages` the transactions accumulated before
the first duplicate page began are `["a", "b"]`, yet the fetch returns
`["a", "b", "b", "c", "c", "d"]` — the first two duplicate pages' entries
(for instance `"c"`) are appended before the third duplicate stops the
loop, refuting "no entry from any duplicate page appears in the result". -/
theorem c3_counterexample :
    fetch_transaction_history dupPages 2 50 =
      some ["a", "b", "b", "c", "c", "d"] ∧
    (["a", "b", "b", "c", "c", "d"] : List String) ≠ ["a", "b"] ∧
    "c" ∈ (["a", "b", "b", "c", "c", "d"] : List String) := by
  refine ⟨by decide, by decide, by decide⟩

/-- C3 amended: when the fetch loop, with its duplicate counter already at 2
(two consecutive duplicate pages seen and appended), receives a third
consecutive duplicate page — first signature equal to the last accumulated
signature — it stops and returns exactly the list accumulated so far, which
includes the first two duplicate pages' entries; the third duplicate page is
not appended. -/
theorem c3_third_duplicate_stops_with_accumulated
    (resp : Nat → Option String → Option (List String))
    (batch maxTx fuel i : Nat) (all : List String) (before : Option String)
    (p0 : String) (rest : List String)
    (hlen : all.length < maxTx)
    (hresp : resp i before = some (p0 :: rest))
    (hlast : all.getLast? = some p0) :
    fetchLoop resp batch maxTx (fuel + 1) i all before 2 = all := by
  unfold fetchLoop
  rw [if_pos hlen, hresp, hlast]
  simp

/-- C3 witness: the state the `dupPages` run reaches at its fourth request
(accumulated `["a","b","b","c","c","d"]`, duplicate counter 2) receives the
third duplicate page `["d","e"]` and the loop returns the accumulated list. -/
theorem c3_witness :
    (["a", "b", "b", "c", "c", "d"] : List String).length < 50 ∧
    dupPages 3 (some "d") = some ["d", "e"] ∧
    (["a", "b", "b", "c", "c", "d"] : List String).getLast? = some "d" ∧
    fetchLoop dupPages 2 50 23 3 ["a", "b", "b", "c", "c", "d"] (some "d") 2 =
      ["a", "b", "b", "c", "c", "d"] :=
  ⟨by decide, by decide, by decide,
    c3_third_duplicate_stops_with_accumulated dupPages 2 50 22 3
      ["a", "b", "b", "c", "c", "d"] (some "d") "d" ["e"]
      (by decide) (by decide) (by decide)⟩

/-- C4: every `Transaction` that `process_transaction` returns satisfies
`net_amount = amount - fee` exactly. -/
theorem c4_net_amount_invariant (tp sp : String) (d : TxDetails)
    (keys : List String) (tx : Transaction)
    (h : process_transaction tp sp d keys = some tx) :
    tx.net_amount = tx.amount - tx.fee := by
  rw [process_transaction_eq] at h
  cases hL : ((d.transaction.getD emptyOuter).signatures).getD [none] with
  | nil => rw [hL] at h; cases h
  | cons sig rest =>
    rw [hL] at h
    injection h with h
    subst h
    rfl

/-- C4 witness: a concrete detail with fee 5 yields a record with
`net_amount = -5 = 0 - 5`. -/
theorem c4_witness :
    Transaction.net_amount ⟨some "sig", 0, none, 0, "SOL", 0, 5, -5⟩ =
      Transaction.amount ⟨some "sig", 0, none, 0, "SOL", 0, 5, -5⟩ -
        Transaction.fee ⟨some "sig", 0, none, 0, "SOL", 0, 5, -5⟩ :=
  c4_net_amount_invariant "TOKENPID" "SYSPID"
    ⟨some ⟨some [some "sig"], none⟩, none, some ⟨some 5⟩⟩ []
    ⟨some "sig", 0, none, 0, "SOL", 0, 5, -5⟩
    (by rw [process_transaction_eq]; norm_num)

/-- Price oracle for the C5 scenario: the underlying price fetcher would
report 5 on its first call (the buy) and 8 afterwards (the sell). -/
def cachedPrices : Nat → String → Rat := fun k _ => if k = 0 then 5 else 8

/-- A buy of 10 units of token `TOK` at timestamp 100. -/
def buyTen : Transaction := ⟨some "sig-buy", 100, some "buy", 10, "TOK", 0, 0, 10⟩

/-- A sell of 10 units of token `TOK` at timestamp 700. -/
def sellTen : Transaction := ⟨some "sig-sell", 700, some "sell", 10, "TOK", 0, 0, 10⟩

/-- C5 counterexample: a buy of 10 units with the underlying price at 5,
followed by a sell of 10 units with the underlying price at 8, does not
produce `(realized PnL, win rate) = (30, 100)`: `get_token_price` is cached
per token, so the sell is priced at the remembered buy-time price 5
(realized PnL `10*5 - 10*5 = 0`, no profitable trade), and `total_trades`
counts the buy as well, so the win rate is 0. -/
theorem c5_counterexample :
    ¬ ((calculate_pnl cachedPrices [buyTen, sellTen]).realized_pnl = 30 ∧
       (calculate_pnl cachedPrices [buyTen, sellTen]).win_rate = 100 ∧
       (pnlFinalState cachedPrices [buyTen, sellTen]).bought_assets = []) := by
  norm_num [calculate_pnl, pnlFinalState, pnlScan, pnlStep, get_token_price,
    cacheLookup, alistLookup, alistInsert, alistErase, unrealizedSweep,
    initPnlState, cachedPrices, buyTen, sellTen,
    eq_false (show ¬ (("sell" : String) = "buy") from by decide)]

/-- C5 amended: for the buy-10-at-5 / sell-10-at-8 stream, `calculate_pnl`
returns realized PnL 0 and win rate 0% — the cached sell price equals the
buy price, so the trade is not profitable, and the win-rate denominator
counts both the buy and the sell — and no open position remains; the
unrealized PnL stays at the committed capital `-50`. -/
theorem c5_amended :
    (calculate_pnl cachedPrices [buyTen, sellTen]).realized_pnl = 0 ∧
    (calculate_pnl cachedPrices [buyTen, sellTen]).win_rate = 0 ∧
    (calculate_pnl cachedPrices [buyTen, sellTen]).unrealized_pnl = -50 ∧
    (pnlFinalState cachedPrices [buyTen, sellTen]).bought_assets = [] := by
  norm_num [calculate_pnl, pnlFinalState, pnlScan, pnlStep, get_token_price,
    cacheLookup, alistLookup, alistInsert, alistErase, unrealizedSweep,
    initPnlState, cachedPrices, buyTen, sellTen,
    eq_false (show ¬ (("sell" : String) = "buy") from by decide)]

/-- Modelled from the spec: §4.4 prescribes "missing block time is
backfilled with current wall-clock time"; the wall clock is a parameter
`now`, absent from the source, which uses the constant default 0 instead. -/
def spec_backfilled_timestamp (blockTime : Option Int) (now : Int) : Int :=
  blockTime.getD now

/-- A raw transaction detail whose block-time field is absent. -/
def dNoBlockTime : TxDetails := ⟨some ⟨some [some "sig"], none⟩, none, none⟩

/-- C6 counterexample: for a detail with no block time the processor stores
timestamp 0, whereas the spec's wall-clock backfill (here at wall-clock
second 1700000000) would store 1700000000 — the claim fails at every
nonzero current time. -/
theorem c6_counterexample :
    (process_transaction "TOKENPID" "SYSPID" dNoBlockTime []).map
      Transaction.timestamp = some 0 ∧
    spec_backfilled_timestamp dNoBlockTime.blockTime 1700000000 = 1700000000 ∧
    (0 : Int) ≠ 1700000000 :=
  ⟨rfl, rfl, by decide⟩

/-- C6 amended: for every raw transaction detail in which the block-time
field is absent, the `Transaction` returned by `process_transaction` has
timestamp 0 (the missing field never makes the processing fail). -/
theorem c6_missing_blocktime_timestamp_zero (tp sp : String) (d : TxDetails)
    (keys : List String) (tx : Transaction) (hbt : d.blockTime = none)
    (h : process_transaction tp sp d keys = some tx) :
    tx.timestamp = 0 := by
  rw [process_transaction_eq] at h
  cases hL : ((d.transaction.getD emptyOuter).signatures).getD [none] with
  | nil => rw [hL] at h; cases h
  | cons sig rest =>
    rw [hL] at h
    injection h with h
    subst h
    show d.blockTime.getD 0 = 0
    rw [hbt]
    rfl

/-- C6 witness: the amended theorem applied to `dNoBlockTime`. -/
theorem c6_witness :
    TxDetails.blockTime dNoBlockTime = none ∧
    Transaction.timestamp ⟨some "sig", 0, none, 0, "SOL", 0, 0, 0⟩ = 0 :=
  ⟨rfl, c6_missing_blocktime_timestamp_zero "TOKENPID" "SYSPID" dNoBlockTime
    [] ⟨some "sig", 0, none, 0, "SOL", 0, 0, 0⟩ rfl
    (by rw [process_transaction_eq]; norm_num [dNoBlockTime])⟩

/-- C7 counterexample: the payload `"a"` fails Python base64 decoding (it is
padded to `"a==="`, one data character more than a multiple of 4) but is
valid base58, decoding to the byte 33; `decode_instruction` nonetheless
returns `none` — so it is not the case that base58 is attempted as a
fallback with `None` only on double failure. -/
theorem c7_counterexample :
    safe_base64_decode "a" = none ∧
    base58_decode "a" = some [33] ∧
    decode_instruction "TOKENPID" "SYSPID" (some "a") "TOKENPID" [] = none :=
  ⟨by decide, by decide,
    decode_instruction_eq_none "TOKENPID" "SYSPID" (some "a") "TOKENPID" []⟩

/-- C7 amended: for every payload whose base64 decoding fails,
`decode_instruction` returns `None` (Unclassified) directly, after logging a
diagnostic; no base58 fallback is attempted. -/
theorem c7_base64_failure_returns_none (tp sp s pid : String)
    (keys : List String) (_h : safe_base64_decode s = none) :
    decode_instruction tp sp (some s) pid keys = none :=
  decode_instruction_eq_none tp sp (some s) pid keys

/-- C7 witness: the amended theorem applied to the payload `"a"`. -/
theorem c7_witness :
    safe_base64_decode "a" = none ∧
    decode_instruction "TOKENPID" "SYSPID" (some "a") "SOMEPID" [] = none :=
  ⟨by decide, c7_base64_failure_returns_none "TOKENPID" "SYSPID" "a" "SOMEPID"
    [] (by decide)⟩

/-- C8: for every wallet whose balance converted to USD falls below the
minimum capital threshold, `analyze_wallet` returns the excluded outcome
(`None`) and performs zero calls to `fetch_transaction_history` — the
capital check at the top of `analyze_wallet` short-circuits before the
history fetch at line 68. -/
theorem c8_low_capital_excluded_without_fetch (o : Oracles) (w : String)
    (minCap minHold minWin minPnl : Rat)
    (h : o.balance * o.solPrice < minCap) :
    analyze_wallet o w minCap minHold minWin minPnl = (none, 0) := by
  have hc : check_wallet_capital o.balance o.solPrice minCap = false := by
    unfold check_wallet_capital
    by_cases hz : o.solPrice = 0
    · rw [if_pos hz]
    · rw [if_neg hz]
      exact decide_eq_false (not_le.mpr h)
  unfold analyze_wallet
  rw [hc]
  simp

/-- Concrete oracle set for the C8 witness: balance 1 SOL, SOL price 1 USD. -/
def oLowCap : Oracles :=
  ⟨"TOKENPID", "SYSPID", 1, 1, fun _ _ => some [], fun _ => none, fun _ _ => 0⟩

/-- C8 witness: with balance 1, price 1 and minimum capital 2, the wallet is
excluded with zero history fetches. -/
theorem c8_witness :
    Oracles.balance oLowCap * Oracles.solPrice oLowCap < 2 ∧
    analyze_wallet oLowCap "wallet" 2 0 0 0 = (none, 0) :=
  ⟨by norm_num [oLowCap],
    c8_low_capital_excluded_without_fetch oLowCap "wallet" 2 0 0 0
      (by norm_num [oLowCap])⟩

/-- C9: for every endpoint behavior, batch size and positive bound, a list
returned by `fetch_transaction_history` has at most `max_transactions`
entries (the final trim at lines 85-86 enforces the bound however the loop
terminated). -/
theorem c9_history_never_exceeds_bound
    (resp : Nat → Option String → Option (List String))
    (batch maxTx : Nat) (l : List String) (_hpos : 0 < maxTx)
    (h : fetch_transaction_history resp batch maxTx = some l) :
    l.length ≤ maxTx := by
  unfold fetch_transaction_history at h
  by_cases hb : batch = 0
  · rw [if_pos hb] at h; cases h
  · rw [if_neg hb] at h
    injection h with h
    subst h
    unfold fetchHistory
    dsimp only
    split
    · next hgt => simp [List.length_take]
    · next hle => exact Nat.le_of_not_lt hle

/-- C9 witness: an endpoint that always answers with an empty page yields an
empty list, within the bound 1. -/
theorem c9_witness : (0 : Nat) < 1 ∧ ([] : List String).length ≤ 1 :=
  ⟨by decide,
    c9_history_never_exceeds_bound (fun _ _ => some []) 1 1 [] (by decide) rfl⟩

/-- The state component that `get_token_price` can change is only the cache
and its call counter. -/
theorem get_token_price_preserves (priceAt : Nat → String → Rat)
    (s : PnlState) (token : String) :
    ((get_token_price priceAt s token).2).realized_pnl = s.realized_pnl ∧
    ((get_token_price priceAt s token).2).profitable_trades = s.profitable_trades ∧
    ((get_token_price priceAt s token).2).bought_assets = s.bought_assets ∧
    ((get_token_price priceAt s token).2).buy_sell_dates = s.buy_sell_dates := by
  unfold get_token_price
  cases cacheLookup token s.cache <;> simp

/-- C10: a sell whose token has no open position is skipped: the realized
PnL, the profitable-trade count, the open-position map and the buy/sell
event list are unchanged by that transaction (whether the skip happens at
the zero-price check or at the missing-position check). -/
theorem c10_unmatched_sell_skipped (priceAt : Nat → String → Rat)
    (s : PnlState) (t : Transaction) (htype : t.type = some "sell")
    (hpos : alistLookup t.token s.bought_assets = none) :
    (pnlStep priceAt s t).realized_pnl = s.realized_pnl ∧
    (pnlStep priceAt s t).profitable_trades = s.profitable_trades ∧
    (pnlStep priceAt s t).bought_assets = s.bought_assets ∧
    (pnlStep priceAt s t).buy_sell_dates = s.buy_sell_dates := by
  obtain ⟨hr, hp, hb, hd⟩ := get_token_price_preserves priceAt s t.token
  unfold pnlStep
  rw [htype, if_neg (by decide), if_pos rfl]
  rcases hq : get_token_price priceAt s t.token with ⟨price, s1⟩
  rw [hq] at hr hp hb hd
  dsimp only at hr hp hb hd ⊢
  by_cases hz : price = 0
  · rw [if_pos hz]
    exact ⟨hr, hp, hb, hd⟩
  · rw [if_neg hz, hb, hpos]
    exact ⟨hr, hp, hb, hd⟩

/-- Scan state with one open position for token `"U"` only. -/
def sC10 : PnlState := ⟨1, 2, 3, 4, [("buy", 9)], [("U", ⟨7, 8, 9⟩)], [], 0⟩

/-- A sell of token `"T"`, for which `sC10` holds no open position. -/
def tC10 : Transaction := ⟨some "sig-s", 50, some "sell", 10, "T", 0, 0, 10⟩

/-- C10 witness: applying the theorem to `sC10` and the unmatched sell
`tC10` under a nonzero price oracle. -/
theorem c10_witness :
    Transaction.type tC10 = some "sell" ∧
    alistLookup (Transaction.token tC10) (PnlState.bought_assets sC10) = none ∧
    (pnlStep (fun _ _ => 5) sC10 tC10).realized_pnl = PnlState.realized_pnl sC10 ∧
    (pnlStep (fun _ _ => 5) sC10 tC10).profitable_trades =
      PnlState.profitable_trades sC10 ∧
    (pnlStep (fun _ _ => 5) sC10 tC10).bought_assets =
      PnlState.bought_assets sC10 ∧
    (pnlStep (fun _ _ => 5) sC10 tC10).buy_sell_dates =
      PnlState.buy_sell_dates sC10 := by
  have h := c10_unmatched_sell_skipped (fun _ _ => 5) sC10 tC10 rfl (by decide)
  exact ⟨rfl, by decide, h.1, h.2.1, h.2.2.1, h.2.2.2⟩

end MySolanaBot
